import Mathlib

/-!
# RxGuard pipeline — shallow embedding

A shallow embedding of the RxGuard clinical-safety pipeline
(`src/agentic/graph/...`): the `RxGuardState` record threaded through the
LangGraph nodes, the five node functions, the confidence gate, and the
composed graph of `builder.py` (START → extract → gate → retrieve → reason
→ critic → report → END).

External collaborators (the Groq LLM chains and the FAISS vectorstore) are
modelled as oracle functions packaged in `Services`.  Observable side
effects (LLM calls, vectorstore load/build, similarity search, audit log
emissions) are recorded in an explicit `Effect` trace.  A failing node
propagates its error together with the state at the moment of failure and
the effects performed so far, mirroring how an exception raised inside a
node aborts the `rxguard_app.invoke` call.

Python floats (the extraction confidence) are modelled as rationals; the
two literals `0.75` compared against are exact in ℚ.  Python `None` is
`Option.none`; rendering a possibly-`None` value inside an f-string is
`pyShowOptStr` / `pyShowOptInt` (Python prints the text `None`).

`builder.py` wires the extraction step as the node imported from
`nodes/context_extraction`; the extraction node implementation present in
the tree is `extract_patient_profile` in `nodes/extract_profile.py`, which
is what the graph embedding uses for the "extract" node.
-/

namespace RxGuard

/-- `risk_level: Literal["low", "moderate", "high"]` from `schemas.py`. -/
inductive RiskLevel
  | low
  | moderate
  | high
deriving DecidableEq, Repr

/-- `level: Literal["info", "warning", "critical"]` from `schemas.py`. -/
inductive SafetyLevel
  | info
  | warning
  | critical
deriving DecidableEq, Repr

/-- `PatientProfile` pydantic model from `schemas.py`. -/
structure PatientProfile where
  age : Option Int
  sex : Option String
  conditions : List String
  risk_factors : List String
deriving DecidableEq, Repr

/-- `ProposedMedication` pydantic model from `schemas.py`. -/
structure ProposedMedication where
  drug_name : Option String
  dose_mg_per_unit : Option Int
  frequency_per_day : Option Int
  duration_days : Option Int
  total_daily_dose_mg : Option Int
deriving DecidableEq, Repr

/-- `ExtractionResult` pydantic model from `schemas.py`. -/
structure ExtractionResult where
  patient_profile : PatientProfile
  proposed_medication : ProposedMedication
  extraction_confidence : ℚ
deriving DecidableEq, Repr

/-- `EvidenceCitation` pydantic model from `schemas.py`. -/
structure EvidenceCitation where
  source : String
  page : Int
deriving DecidableEq, Repr

/-- `RiskAnalysis` pydantic model from `schemas.py`. -/
structure RiskAnalysis where
  summary : String
  mechanism : String
  evidence : List EvidenceCitation
  risk_level : RiskLevel
deriving DecidableEq, Repr

/-- `SafetyFlag` pydantic model from `schemas.py`. -/
structure SafetyFlag where
  level : SafetyLevel
  reason : String
deriving DecidableEq, Repr

/-- One entry of `retrieved_guidelines`: the dict built in
`guideline_retrieval_node` from a search hit (`metadata.get` may be
absent, hence the options). -/
structure Guideline where
  source : Option String
  page : Option Int
  content : String
deriving DecidableEq, Repr

/-- A raw similarity-search hit (a LangChain `Document`): page content
plus optional source/page metadata. -/
structure Doc where
  meta_source : Option String
  meta_page : Option Int
  page_content : String
deriving DecidableEq, Repr

/-- The `final_report` dict produced by `generate_clinical_report`. -/
structure FinalReport where
  alert_level : String
  patient_context : String
  identified_risk : String
  guideline_evidence : List String
  confidence : String
deriving DecidableEq, Repr

/-- `RxGuardState` TypedDict from `schemas.py`: the canonical state passed
through every node.  All fields other than `raw_note` start as `None`. -/
structure RxGuardState where
  raw_note : String
  patient_profile : Option PatientProfile
  proposed_medication : Option ProposedMedication
  confidence : Option ℚ
  retrieved_guidelines : Option (List Guideline)
  risk_analysis : Option RiskAnalysis
  safety_flag : Option SafetyFlag
  final_report : Option FinalReport
deriving DecidableEq, Repr

/-- The initial state built in `src/api/main.py` (`check_medication`):
`raw_note` from the request, every other field `None`. -/
def initState (raw_note : String) : RxGuardState :=
  ⟨raw_note, none, none, none, none, none, none, none⟩

/-- Error taxonomy: the exceptions the nodes raise, tagged with the
spec's error names.  `validationError` is the "Empty clinical note
provided" `ValueError`; `extractionError` is the "Extraction confidence
too low" `ValueError`; `schemaError` is an output-parser failure;
`serviceError` is any other external-service failure. -/
inductive ErrKind
  | validationError (msg : String)
  | extractionError (msg : String)
  | schemaError (msg : String)
  | serviceError (msg : String)
deriving DecidableEq, Repr

/-- Observable side effects of a pipeline run: external service calls,
vectorstore load/build and search, and audit-log emissions (the prominent
`logger.warning` in the safety critic and `log_clinical_event` in the
report node). -/
inductive Effect
  | llmExtract (note : String)
  | indexLoad
  | indexBuild
  | search (query : String) (k : Nat)
  | llmRisk
  | llmSafety
  | auditSafety (level : SafetyLevel) (reason : String)
  | auditReport (alert_level : String)
deriving DecidableEq, Repr

/-- Raw JSON object returned by the safety-critic LLM before pydantic
parsing: both fields may be absent (the prompt instructs the model to
return an empty JSON object when no escalation is required). -/
structure RawSafetyJson where
  level : Option String
  reason : Option String
deriving DecidableEq, Repr

/-- The external collaborators: the extraction LLM chain, the FAISS
vectorstore (whether the persisted index already exists, and the
similarity search), the configured result count, the risk-reasoning LLM
chain and the safety-critic LLM. -/
structure Services where
  extractor : String → Except ErrKind ExtractionResult
  vectorstoreExists : Bool
  search : String → Nat → List Doc
  top_k : Nat
  riskOracle : PatientProfile → ProposedMedication → String → Except ErrKind RiskAnalysis
  safetyOracle : PatientProfile → ProposedMedication → RiskAnalysis → Except ErrKind RawSafetyJson

/-- Result type of one node: on success the updated state and the effects
performed; on failure the error, the state at the moment of failure and
the effects performed before failing. -/
abbrev NodeResult := Except (ErrKind × RxGuardState × List Effect) (RxGuardState × List Effect)

/-- Python rendering of a possibly-`None` string inside an f-string. -/
def pyShowOptStr : Option String → String
  | none => "None"
  | some s => s

/-- Python rendering of a possibly-`None` int inside an f-string. -/
def pyShowOptInt : Option Int → String
  | none => "None"
  | some n => toString n

/-- `not raw_note or not raw_note.strip()`: true iff the note is empty or
whitespace-only. -/
def blank (s : String) : Bool :=
  s.toList.all Char.isWhitespace

/-- `CONFIDENCE_THRESHOLD = 0.75` from `extract_profile.py`.  The float
literal `0.75` is written as the rational 3/4 (`CONFIDENCE_THRESHOLD_eq`
below proves it equal to the scientific literal `0.75`). -/
def CONFIDENCE_THRESHOLD : ℚ := mkRat 3 4


/-- `run_extraction` from `extract_profile.py`: invoke the extraction
chain, then raise `ValueError` ("Extraction confidence too low") when the
returned confidence is below `CONFIDENCE_THRESHOLD`. -/
def run_extraction (extractor : String → Except ErrKind ExtractionResult)
    (note : String) : Except ErrKind ExtractionResult :=
  match extractor note with
  | .error e => .error e
  | .ok result =>
    if result.extraction_confidence < CONFIDENCE_THRESHOLD then
      .error (.extractionError "Extraction confidence too low")
    else
      .ok result

/-- `extract_patient_profile` from `extract_profile.py`: validate the raw
note (raising "Empty clinical note provided" before any service call),
run the extraction chain, and on success return
`{**state, patient_profile, proposed_medication, confidence}`. -/
def extract_patient_profile (svc : Services) (state : RxGuardState) : NodeResult :=
  if blank state.raw_note then
    .error (.validationError "Empty clinical note provided", state, [])
  else
    match run_extraction svc.extractor state.raw_note with
    | .error e => .error (e, state, [Effect.llmExtract state.raw_note])
    | .ok extraction =>
      .ok ({ state with
              patient_profile := some extraction.patient_profile,
              proposed_medication := some extraction.proposed_medication,
              confidence := some extraction.extraction_confidence },
           [Effect.llmExtract state.raw_note])

/-- `confidence_gate` from `edges/conditionals.py`: return "stop" when
confidence is `None` or `< 0.75`, else "retrieve". -/
def confidence_gate (state : RxGuardState) : String :=
  match state.confidence with
  | none => "stop"
  | some confidence =>
    if confidence < mkRat 3 4 then "stop" else "retrieve"

/-- The free-text search query built in `guideline_retrieval_node` from
the patient conditions and the drug name (adjacent f-string literals
concatenated). -/
def build_query (patient_profile : PatientProfile)
    (proposed_medication : ProposedMedication) : String :=
  let conditions := String.intercalate ", " patient_profile.conditions
  let drug := pyShowOptStr proposed_medication.drug_name
  "Prescribing guidance for " ++ drug ++ " in patients with " ++ conditions ++
    " renal impairment contraindications dosing"

/-- `get_vectorstore` from `guideline_retrieval.py`: load the persisted
index when it exists, otherwise build it (the one side-effecting
initialization path). -/
def get_vectorstore_effect (svc : Services) : Effect :=
  if svc.vectorstoreExists then Effect.indexLoad else Effect.indexBuild

/-- The dict comprehension in `guideline_retrieval_node` mapping each
search hit to `{source, page, content}`. -/
def docToGuideline (r : Doc) : Guideline :=
  ⟨r.meta_source, r.meta_page, r.page_content⟩

/-- `guideline_retrieval_node` from `guideline_retrieval.py`: build the
query from `patient_profile` / `proposed_medication`, load or build the
vectorstore, run the top-k similarity search and write the formatted hits
to `retrieved_guidelines`.  Accessing a `None` profile or medication
raises (modelled as a service error carrying an AttributeError). -/
def guideline_retrieval_node (svc : Services) (state : RxGuardState) : NodeResult :=
  match state.patient_profile, state.proposed_medication with
  | some patient_profile, some proposed_medication =>
    let query := build_query patient_profile proposed_medication
    let results := svc.search query svc.top_k
    .ok ({ state with retrieved_guidelines := some (results.map docToGuideline) },
         [get_vectorstore_effect svc, Effect.search query svc.top_k])
  | _, _ => .error (.serviceError "AttributeError: NoneType", state, [])

/-- The guideline excerpt text built in `risk_reasoning_node`:
`"Source: {source}, Page: {page}\n{content}"` joined by blank lines. -/
def guidelineText (gs : List Guideline) : String :=
  String.intercalate "\n\n"
    (gs.map fun g =>
      "Source: " ++ pyShowOptStr g.source ++ ", Page: " ++ pyShowOptInt g.page ++
        "\n" ++ g.content)

/-- `risk_reasoning_node` from `risk_reasoning.py`: format the retrieved
guidelines, invoke the risk chain and write `risk_analysis`. -/
def risk_reasoning_node (svc : Services) (state : RxGuardState) : NodeResult :=
  match state.patient_profile, state.proposed_medication, state.retrieved_guidelines with
  | some patient_profile, some proposed_medication, some guidelines =>
    match svc.riskOracle patient_profile proposed_medication (guidelineText guidelines) with
    | .error e => .error (e, state, [Effect.llmRisk])
    | .ok risk =>
      .ok ({ state with risk_analysis := some risk }, [Effect.llmRisk])
  | _, _, _ => .error (.serviceError "AttributeError: NoneType", state, [])

/-- Pydantic parsing of the safety-critic LLM output against the
`SafetyFlag` model: `level` must be present and one of the three
literals, `reason` must be present (both fields are required, with no
defaults). -/
def parseSafetyFlag (raw : RawSafetyJson) : Except ErrKind SafetyFlag :=
  match raw.level, raw.reason with
  | some l, some r =>
    if l = "info" then .ok ⟨SafetyLevel.info, r⟩
    else if l = "warning" then .ok ⟨SafetyLevel.warning, r⟩
    else if l = "critical" then .ok ⟨SafetyLevel.critical, r⟩
    else .error (.schemaError "validation error: level not a permitted literal")
  | _, _ => .error (.schemaError "validation error: field required")

/-- `safety_critic_node` from `safety_critic.py`: invoke the safety chain
(LLM output then pydantic parsing), write `safety_flag`, and log the flag
prominently (`logger.warning`, the audit emission) exactly when the level
is "warning" or "critical". -/
def safety_critic_node (svc : Services) (state : RxGuardState) : NodeResult :=
  match state.patient_profile, state.proposed_medication, state.risk_analysis with
  | some patient_profile, some proposed_medication, some risk_analysis =>
    match svc.safetyOracle patient_profile proposed_medication risk_analysis with
    | .error e => .error (e, state, [Effect.llmSafety])
    | .ok raw =>
      match parseSafetyFlag raw with
      | .error e => .error (e, state, [Effect.llmSafety])
      | .ok flag =>
        .ok ({ state with safety_flag := some flag },
             [Effect.llmSafety] ++
               (if flag.level = SafetyLevel.warning ∨ flag.level = SafetyLevel.critical then
                  [Effect.auditSafety flag.level flag.reason]
                else []))
  | _, _, _ => .error (.serviceError "AttributeError: NoneType", state, [])

/-- `safety_flag["level"].upper()` on the three permitted literals. -/
def SafetyLevel.upperStr : SafetyLevel → String
  | SafetyLevel.info => "INFO"
  | SafetyLevel.warning => "WARNING"
  | SafetyLevel.critical => "CRITICAL"

/-- `risk_analysis["risk_level"].capitalize()` on the three permitted
literals. -/
def RiskLevel.capitalizeStr : RiskLevel → String
  | RiskLevel.low => "Low"
  | RiskLevel.moderate => "Moderate"
  | RiskLevel.high => "High"

/-- `generate_clinical_report` from `final_report.py`: the deterministic
rendering of the final report dict. -/
def generate_clinical_report (patient_profile : PatientProfile)
    (_proposed_medication : ProposedMedication)
    (risk_analysis : RiskAnalysis) (safety_flag : SafetyFlag) : FinalReport :=
  { alert_level := safety_flag.level.upperStr
    patient_context :=
      pyShowOptInt patient_profile.age ++ " year old " ++
        pyShowOptStr patient_profile.sex ++ " with " ++
        String.intercalate ", " patient_profile.conditions
    identified_risk :=
      risk_analysis.summary ++ " Mechanism: " ++ risk_analysis.mechanism ++ "."
    guideline_evidence :=
      risk_analysis.evidence.map fun e =>
        e.source ++ " (page " ++ toString e.page ++ ")"
    confidence := risk_analysis.risk_level.capitalizeStr }

/-- `final_report_node` from `final_report.py`: render the report from
the four earlier work products, write `final_report`, and emit the
unconditional `log_clinical_event` terminal audit record. -/
def final_report_node (_svc : Services) (state : RxGuardState) : NodeResult :=
  match state.patient_profile, state.proposed_medication,
      state.risk_analysis, state.safety_flag with
  | some patient_profile, some proposed_medication, some risk_analysis, some safety_flag =>
    let report := generate_clinical_report patient_profile proposed_medication
      risk_analysis safety_flag
    .ok ({ state with final_report := some report },
         [Effect.auditReport report.alert_level])
  | _, _, _, _ => .error (.serviceError "KeyError or NoneType", state, [])

/-- The compiled graph of `builder.py`: START → extract; a conditional
edge on `confidence_gate` mapping "retrieve" to the retrieval node and
"stop" to END; then the linear chain retrieve → reason → critic → report
→ END.  A node exception aborts the run, propagating the error with the
state at failure and the effects performed so far; a gate halt returns
the state with no error. -/
def runPipeline (svc : Services) (s0 : RxGuardState) : NodeResult :=
  match extract_patient_profile svc s0 with
  | .error e => .error e
  | .ok (s1, ef1) =>
    if confidence_gate s1 = "stop" then
      .ok (s1, ef1)
    else
      match guideline_retrieval_node svc s1 with
      | .error (k, s, ef) => .error (k, s, ef1 ++ ef)
      | .ok (s2, ef2) =>
        match risk_reasoning_node svc s2 with
        | .error (k, s, ef) => .error (k, s, ef1 ++ ef2 ++ ef)
        | .ok (s3, ef3) =>
          match safety_critic_node svc s3 with
          | .error (k, s, ef) => .error (k, s, ef1 ++ ef2 ++ ef3 ++ ef)
          | .ok (s4, ef4) =>
            match final_report_node svc s4 with
            | .error (k, s, ef) => .error (k, s, ef1 ++ ef2 ++ ef3 ++ ef4 ++ ef)
            | .ok (s5, ef5) => .ok (s5, ef1 ++ ef2 ++ ef3 ++ ef4 ++ ef5)

/-- The sequence of states a run visits: the initial state and the state
after each node that completes, up to an error or the gate halt. -/
def pipelineVisited (svc : Services) (s0 : RxGuardState) : List RxGuardState :=
  s0 ::
    match extract_patient_profile svc s0 with
    | .error _ => []
    | .ok (s1, _) =>
      s1 ::
        (if confidence_gate s1 = "stop" then []
         else
           match guideline_retrieval_node svc s1 with
           | .error _ => []
           | .ok (s2, _) =>
             s2 ::
               match risk_reasoning_node svc s2 with
               | .error _ => []
               | .ok (s3, _) =>
                 s3 ::
                   match safety_critic_node svc s3 with
                   | .error _ => []
                   | .ok (s4, _) =>
                     s4 ::
                       match final_report_node svc s4 with
                       | .error _ => []
                       | .ok (s5, _) => [s5])

/-- "Forward-only" population: no later field is set while an earlier
required field is unset (fields in pipeline order: `patient_profile`,
`proposed_medication`, `confidence`, `retrieved_guidelines`,
`risk_analysis`, `safety_flag`, `final_report`). -/
def forwardOnly (s : RxGuardState) : Bool :=
  (!s.proposed_medication.isSome || s.patient_profile.isSome) &&
  (!s.confidence.isSome || s.proposed_medication.isSome) &&
  (!s.retrieved_guidelines.isSome || s.confidence.isSome) &&
  (!s.risk_analysis.isSome || s.retrieved_guidelines.isSome) &&
  (!s.safety_flag.isSome || s.risk_analysis.isSome) &&
  (!s.final_report.isSome || s.safety_flag.isSome)

/-- Recognizer for the safety-critic audit emission in an effect
trace. -/
def isAuditSafety : Effect → Bool
  | Effect.auditSafety _ _ => true
  | _ => false

/-- Recognizer for the report node's terminal audit emission in an
effect trace. -/
def isAuditReport : Effect → Bool
  | Effect.auditReport _ => true
  | _ => false

/-! ## Concrete fixtures

A concrete service assembly used to exercise the theorems on explicit
inputs (the CKD/Ibuprofen scenario of the test suite). -/

/-- Concrete extracted patient profile. -/
def ppW : PatientProfile :=
  ⟨some 65, some "male", ["Chronic Kidney Disease Stage 3"], ["renal impairment"]⟩

/-- Concrete extracted medication. -/
def pmW : ProposedMedication :=
  ⟨some "Ibuprofen", some 800, some 3, some 5, some 2400⟩

/-- Concrete risk analysis returned by the risk chain. -/
def raW : RiskAnalysis :=
  ⟨"High risk of acute kidney injury.", "NSAIDs constrict afferent arterioles",
   [⟨"kdigo.pdf", 12⟩], RiskLevel.high⟩

/-- Concrete search hit. -/
def docW : Doc := ⟨some "kdigo.pdf", some 12, "Avoid NSAIDs in CKD stage 3-5."⟩

/-- Concrete parsed safety flag. -/
def flagW : SafetyFlag := ⟨SafetyLevel.critical, "Nephrotoxic in CKD"⟩

/-- Concrete clinical note. -/
def noteW : String :=
  "65M, Stage 3 CKD, severe back pain. Plan: Ibuprofen 800mg TID x5 days."

/-- Concrete services: extraction succeeds with confidence 0.9, the
persisted index exists, search returns one hit, the risk chain and
safety chain succeed. -/
def svcW : Services :=
  ⟨fun _ => .ok ⟨ppW, pmW, mkRat 9 10⟩, true, fun _ _ => [docW], 5,
   fun _ _ _ => .ok raW, fun _ _ _ => .ok ⟨some "critical", some "Nephrotoxic in CKD"⟩⟩

/-- Same services, but the extraction chain reports confidence 0.40. -/
def svcLow : Services :=
  { svcW with extractor := fun _ => .ok ⟨ppW, pmW, mkRat 2 5⟩ }

/-- Same services, but the safety-critic LLM returns an empty JSON
object (the output its own prompt requests when no escalation is
warranted). -/
def svcEmptyFlag : Services :=
  { svcW with safetyOracle := fun _ _ _ => .ok ⟨none, none⟩ }

/-- Fallback value for extracting a node output. -/
def dfltOut : RxGuardState × List Effect := (initState "", [])

/-- Concrete output of the extraction node. -/
def exOutW : RxGuardState × List Effect :=
  (extract_patient_profile svcW (initState noteW)).toOption.getD dfltOut

/-- Concrete output of the retrieval node. -/
def retOutW : RxGuardState × List Effect :=
  (guideline_retrieval_node svcW exOutW.1).toOption.getD dfltOut

/-- Concrete output of the risk-reasoning node. -/
def riskOutW : RxGuardState × List Effect :=
  (risk_reasoning_node svcW retOutW.1).toOption.getD dfltOut

/-- Concrete output of the safety-critic node. -/
def critOutW : RxGuardState × List Effect :=
  (safety_critic_node svcW riskOutW.1).toOption.getD dfltOut

/-- Concrete output of the report node. -/
def repOutW : RxGuardState × List Effect :=
  (final_report_node svcW critOutW.1).toOption.getD dfltOut

/-- Concrete output of a full pipeline run. -/
def pipeOutW : RxGuardState × List Effect :=
  (runPipeline svcW (initState noteW)).toOption.getD dfltOut

/-- The state reaching the safety critic in the concrete scenario. -/
def st3W : RxGuardState := riskOutW.1

/-! ## Lemmas and theorems -/

/-- The threshold is exactly the source's literal `0.75`. -/
lemma CONFIDENCE_THRESHOLD_eq : CONFIDENCE_THRESHOLD = (0.75 : ℚ) := by
  norm_num [CONFIDENCE_THRESHOLD, Rat.mkRat_eq_div]

/-- Inversion: a successful extraction node run means the note was not
blank, the extraction chain succeeded, and the output is the input state
with the three extraction fields set. -/
lemma extract_ok_shape {svc : Services} {s : RxGuardState}
    {out : RxGuardState × List Effect}
    (h : extract_patient_profile svc s = .ok out) :
    blank s.raw_note = false ∧
    ∃ r, run_extraction svc.extractor s.raw_note = .ok r ∧
      out = ({ s with patient_profile := some r.patient_profile,
                      proposed_medication := some r.proposed_medication,
                      confidence := some r.extraction_confidence },
             [Effect.llmExtract s.raw_note]) := by
  unfold extract_patient_profile at h
  cases hb : blank s.raw_note with
  | true => simp only [hb, if_true] at h; exact Except.noConfusion h
  | false =>
    refine ⟨rfl, ?_⟩
    simp only [hb, Bool.false_eq_true, if_false] at h
    cases hr : run_extraction svc.extractor s.raw_note with
    | error e => simp only [hr] at h; exact Except.noConfusion h
    | ok r =>
      simp only [hr] at h
      injection h with h1
      exact ⟨r, rfl, h1.symm⟩

/-- Inversion: a successful extraction always clears the threshold. -/
lemma run_extraction_ok_conf
    {extractor : String → Except ErrKind ExtractionResult}
    {note : String} {r : ExtractionResult}
    (h : run_extraction extractor note = .ok r) :
    CONFIDENCE_THRESHOLD ≤ r.extraction_confidence := by
  unfold run_extraction at h
  cases hx : extractor note with
  | error e => simp only [hx] at h; exact Except.noConfusion h
  | ok result =>
    simp only [hx] at h
    by_cases hc : result.extraction_confidence < CONFIDENCE_THRESHOLD
    · simp only [hc, if_true] at h; exact Except.noConfusion h
    · simp only [hc, if_false] at h
      injection h with h1
      rw [← h1]
      exact le_of_not_lt hc

/-- Inversion: a successful retrieval node run means both inputs were
present and the output is the input state with `retrieved_guidelines`
set to the formatted search hits. -/
lemma retrieval_ok_shape {svc : Services} {s : RxGuardState}
    {out : RxGuardState × List Effect}
    (h : guideline_retrieval_node svc s = .ok out) :
    ∃ pp pm, s.patient_profile = some pp ∧ s.proposed_medication = some pm ∧
      out = ({ s with retrieved_guidelines := some ((svc.search (build_query pp pm) svc.top_k).map docToGuideline) },
             [get_vectorstore_effect svc,
              Effect.search (build_query pp pm) svc.top_k]) := by
  unfold guideline_retrieval_node at h
  cases hpp : s.patient_profile with
  | none => simp only [hpp] at h; exact Except.noConfusion h
  | some pp =>
    cases hpm : s.proposed_medication with
    | none => simp only [hpp, hpm] at h; exact Except.noConfusion h
    | some pm =>
      simp only [hpp, hpm] at h
      injection h with h1
      exact ⟨pp, pm, rfl, rfl, h1.symm⟩

/-- Inversion: a successful risk-reasoning node run means the inputs were
present, the risk chain succeeded, and the output is the input state with
`risk_analysis` set. -/
lemma risk_ok_shape {svc : Services} {s : RxGuardState}
    {out : RxGuardState × List Effect}
    (h : risk_reasoning_node svc s = .ok out) :
    ∃ pp pm gs risk, s.patient_profile = some pp ∧
      s.proposed_medication = some pm ∧ s.retrieved_guidelines = some gs ∧
      svc.riskOracle pp pm (guidelineText gs) = .ok risk ∧
      out = ({ s with risk_analysis := some risk }, [Effect.llmRisk]) := by
  unfold risk_reasoning_node at h
  cases hpp : s.patient_profile with
  | none => simp only [hpp] at h; exact Except.noConfusion h
  | some pp =>
    cases hpm : s.proposed_medication with
    | none => simp only [hpp, hpm] at h; exact Except.noConfusion h
    | some pm =>
      cases hgs : s.retrieved_guidelines with
      | none => simp only [hpp, hpm, hgs] at h; exact Except.noConfusion h
      | some gs =>
        simp only [hpp, hpm, hgs] at h
        cases hr : svc.riskOracle pp pm (guidelineText gs) with
        | error e => simp only [hr] at h; exact Except.noConfusion h
        | ok risk =>
          simp only [hr] at h
          injection h with h1
          exact ⟨pp, pm, gs, risk, rfl, rfl, rfl, hr, h1.symm⟩

/-- Inversion: a successful safety-critic node run means the inputs were
present, the LLM output parsed into a `SafetyFlag`, and the output is the
input state with `safety_flag` set, with the conditional audit effect. -/
lemma safety_ok_shape {svc : Services} {s : RxGuardState}
    {out : RxGuardState × List Effect}
    (h : safety_critic_node svc s = .ok out) :
    ∃ pp pm ra raw flag, s.patient_profile = some pp ∧
      s.proposed_medication = some pm ∧ s.risk_analysis = some ra ∧
      svc.safetyOracle pp pm ra = .ok raw ∧
      parseSafetyFlag raw = .ok flag ∧
      out = ({ s with safety_flag := some flag },
             [Effect.llmSafety] ++
               (if flag.level = SafetyLevel.warning ∨ flag.level = SafetyLevel.critical
                then [Effect.auditSafety flag.level flag.reason] else [])) := by
  unfold safety_critic_node at h
  cases hpp : s.patient_profile with
  | none => simp only [hpp] at h; exact Except.noConfusion h
  | some pp =>
    cases hpm : s.proposed_medication with
    | none => simp only [hpp, hpm] at h; exact Except.noConfusion h
    | some pm =>
      cases hra : s.risk_analysis with
      | none => simp only [hpp, hpm, hra] at h; exact Except.noConfusion h
      | some ra =>
        simp only [hpp, hpm, hra] at h
        cases ho : svc.safetyOracle pp pm ra with
        | error e => simp only [ho] at h; exact Except.noConfusion h
        | ok raw =>
          simp only [ho] at h
          cases hp : parseSafetyFlag raw with
          | error e => simp only [hp] at h; exact Except.noConfusion h
          | ok flag =>
            simp only [hp] at h
            injection h with h1
            exact ⟨pp, pm, ra, raw, flag, rfl, rfl, rfl, ho, hp, h1.symm⟩

/-- Inversion: a successful report node run means the four work products
were present and the output is the input state with `final_report` set to
the rendered report, plus the unconditional terminal audit effect. -/
lemma report_ok_shape {svc : Services} {s : RxGuardState}
    {out : RxGuardState × List Effect}
    (h : final_report_node svc s = .ok out) :
    ∃ pp pm ra sf, s.patient_profile = some pp ∧
      s.proposed_medication = some pm ∧ s.risk_analysis = some ra ∧
      s.safety_flag = some sf ∧
      out = ({ s with final_report := some (generate_clinical_report pp pm ra sf) },
             [Effect.auditReport (generate_clinical_report pp pm ra sf).alert_level]) := by
  unfold final_report_node at h
  cases hpp : s.patient_profile with
  | none => simp only [hpp] at h; exact Except.noConfusion h
  | some pp =>
    cases hpm : s.proposed_medication with
    | none => simp only [hpp, hpm] at h; exact Except.noConfusion h
    | some pm =>
      cases hra : s.risk_analysis with
      | none => simp only [hpp, hpm, hra] at h; exact Except.noConfusion h
      | some ra =>
        cases hsf : s.safety_flag with
        | none => simp only [hpp, hpm, hra, hsf] at h; exact Except.noConfusion h
        | some sf =>
          simp only [hpp, hpm, hra, hsf] at h
          injection h with h1
          exact ⟨pp, pm, ra, sf, rfl, rfl, rfl, rfl, h1.symm⟩

/-- After a successful extraction node run the gate always routes to
"retrieve": the node has already rejected every confidence below the
gate's own threshold. -/
lemma gate_after_extract {svc : Services} {s : RxGuardState}
    {out : RxGuardState × List Effect}
    (h : extract_patient_profile svc s = .ok out) :
    confidence_gate out.1 = "retrieve" := by
  obtain ⟨hb, r, hr, hout⟩ := extract_ok_shape h
  have hc : CONFIDENCE_THRESHOLD ≤ r.extraction_confidence :=
    run_extraction_ok_conf hr
  rw [CONFIDENCE_THRESHOLD] at hc
  subst hout
  simp only [confidence_gate]
  rw [if_neg (not_lt.mpr hc)]

/-- Inversion of a completed (non-error) pipeline run: the gate cannot
have halted, so all five nodes ran in order. -/
lemma runPipeline_ok_inv {svc : Services} {s0 : RxGuardState}
    {out : RxGuardState × List Effect}
    (h : runPipeline svc s0 = .ok out) :
    ∃ s1 ef1 s2 ef2 s3 ef3 s4 ef4 s5 ef5,
      extract_patient_profile svc s0 = .ok (s1, ef1) ∧
      confidence_gate s1 = "retrieve" ∧
      guideline_retrieval_node svc s1 = .ok (s2, ef2) ∧
      risk_reasoning_node svc s2 = .ok (s3, ef3) ∧
      safety_critic_node svc s3 = .ok (s4, ef4) ∧
      final_report_node svc s4 = .ok (s5, ef5) ∧
      out = (s5, ef1 ++ ef2 ++ ef3 ++ ef4 ++ ef5) := by
  unfold runPipeline at h
  cases hx : extract_patient_profile svc s0 with
  | error e => simp only [hx] at h; exact Except.noConfusion h
  | ok p1 =>
    obtain ⟨s1, ef1⟩ := p1
    have hg : confidence_gate s1 = "retrieve" := gate_after_extract hx
    simp only [hx, hg] at h
    rw [if_neg (by decide : ¬("retrieve" : String) = "stop")] at h
    cases h2 : guideline_retrieval_node svc s1 with
    | error e => simp only [h2] at h; exact Except.noConfusion h
    | ok p2 =>
      obtain ⟨s2, ef2⟩ := p2
      simp only [h2] at h
      cases h3 : risk_reasoning_node svc s2 with
      | error e => simp only [h3] at h; exact Except.noConfusion h
      | ok p3 =>
        obtain ⟨s3, ef3⟩ := p3
        simp only [h3] at h
        cases h4 : safety_critic_node svc s3 with
        | error e => simp only [h4] at h; exact Except.noConfusion h
        | ok p4 =>
          obtain ⟨s4, ef4⟩ := p4
          simp only [h4] at h
          cases h5 : final_report_node svc s4 with
          | error e => simp only [h5] at h; exact Except.noConfusion h
          | ok p5 =>
            obtain ⟨s5, ef5⟩ := p5
            simp only [h5] at h
            injection h with h1
            exact ⟨s1, ef1, s2, ef2, s3, ef3, s4, ef4, s5, ef5,
              rfl, hg, h2, h3, h4, h5, h1.symm⟩

/-- The gate's literal `0.75` (written `mkRat 3 4`) is the scientific
literal `0.75`. -/
lemma gate_literal_eq : mkRat 3 4 = (0.75 : ℚ) := by
  norm_num [Rat.mkRat_eq_div]

/-- Claim C4: the ConfidenceGate is a pure, side-effect-free function of
the state's `confidence` field: it returns the continue route
("retrieve") exactly when confidence is present and `≥ 0.75`, and the
halt route ("stop") otherwise, including when confidence is absent; its
result depends on no state field other than `confidence`. -/
theorem confidence_gate_spec :
    (∀ s : RxGuardState, confidence_gate s = "retrieve" ↔
        ∃ c, s.confidence = some c ∧ (0.75 : ℚ) ≤ c) ∧
    (∀ s : RxGuardState, s.confidence = none → confidence_gate s = "stop") ∧
    (∀ s : RxGuardState, confidence_gate s = "retrieve" ∨ confidence_gate s = "stop") ∧
    (∀ s₁ s₂ : RxGuardState, s₁.confidence = s₂.confidence →
        confidence_gate s₁ = confidence_gate s₂) := by
  refine ⟨?_, ?_, ?_, ?_⟩
  · intro s
    constructor
    · intro h
      cases hc : s.confidence with
      | none => simp only [confidence_gate, hc] at h; exact absurd h (by decide)
      | some c =>
        simp only [confidence_gate, hc] at h
        by_cases hlt : c < mkRat 3 4
        · rw [if_pos hlt] at h; exact absurd h (by decide)
        · refine ⟨c, rfl, ?_⟩
          have hle := le_of_not_lt hlt
          rw [gate_literal_eq] at hle
          exact hle
    · rintro ⟨c, hc, hle⟩
      simp only [confidence_gate, hc]
      have hnl : ¬ c < mkRat 3 4 := by
        rw [gate_literal_eq]
        exact not_lt.mpr hle
      rw [if_neg hnl]
  · intro s h
    simp [confidence_gate, h]
  · intro s
    cases hc : s.confidence with
    | none => right; simp [confidence_gate, hc]
    | some c =>
      by_cases hlt : c < mkRat 3 4
      · right; simp [confidence_gate, hc, hlt]
      · left; simp [confidence_gate, hc, hlt]
  · intro s₁ s₂ h
    unfold confidence_gate
    rw [h]

/-- Witness for C4: the fresh initial state (confidence absent) routes to
"stop". -/
theorem confidence_gate_spec_witness :
    confidence_gate (initState noteW) = "stop" :=
  confidence_gate_spec.2.1 (initState noteW) rfl

/-- Claim C3: for every run whose `raw_note` is empty or whitespace-only,
the pipeline fails with the ValidationError ("Empty clinical note
provided") before any external service call — the result is the same for
every choice of services, the effect trace is empty, and the state
carried by the error is the untouched initial state (no field beyond
`raw_note` populated). -/
theorem blank_note_validation :
    ∀ (svc : Services) (note : String), blank note = true →
      runPipeline svc (initState note) =
        .error (ErrKind.validationError "Empty clinical note provided",
                initState note, []) := by
  intro svc note hb
  unfold runPipeline extract_patient_profile
  simp [initState, hb]

/-- Witness for C3: a whitespace-only note, with the concrete services. -/
theorem blank_note_validation_witness :
    runPipeline svcW (initState "   ") =
      .error (ErrKind.validationError "Empty clinical note provided",
              initState "   ", []) :=
  blank_note_validation svcW "   " (by decide)

/-- Claim C5: for every state reaching the report node with
`patient_profile`, `proposed_medication`, `risk_analysis` and
`safety_flag` set, the node succeeds and the rendered `final_report` is
the deterministic transform: upper-cased flag level, the age/sex/
comma-joined-conditions context string, the summary-plus-mechanism risk
string, the "source (page n)" evidence strings, and the title-cased risk
level as the report's `confidence` field (a transform of the risk level,
not of the extraction confidence). -/
theorem report_render_spec :
    ∀ (svc : Services) (s : RxGuardState) (pp : PatientProfile)
      (pm : ProposedMedication) (ra : RiskAnalysis) (sf : SafetyFlag),
      s.patient_profile = some pp → s.proposed_medication = some pm →
      s.risk_analysis = some ra → s.safety_flag = some sf →
      final_report_node svc s =
        .ok ({ s with final_report := some (generate_clinical_report pp pm ra sf) },
             [Effect.auditReport (SafetyLevel.upperStr sf.level)]) ∧
      (generate_clinical_report pp pm ra sf).alert_level =
        SafetyLevel.upperStr sf.level ∧
      (generate_clinical_report pp pm ra sf).patient_context =
        pyShowOptInt pp.age ++ " year old " ++ pyShowOptStr pp.sex ++
          " with " ++ String.intercalate ", " pp.conditions ∧
      (generate_clinical_report pp pm ra sf).identified_risk =
        ra.summary ++ " Mechanism: " ++ ra.mechanism ++ "." ∧
      (generate_clinical_report pp pm ra sf).guideline_evidence =
        ra.evidence.map (fun e => e.source ++ " (page " ++ toString e.page ++ ")") ∧
      (generate_clinical_report pp pm ra sf).confidence =
        RiskLevel.capitalizeStr ra.risk_level := by
  intro svc s pp pm ra sf hpp hpm hra hsf
  refine ⟨?_, rfl, rfl, rfl, rfl, rfl⟩
  unfold final_report_node
  simp only [hpp, hpm, hra, hsf]
  rfl

/-- Witness for C5: the concrete safety-critic output state rendered by
the report node. -/
theorem report_render_spec_witness :
    final_report_node svcW critOutW.1 =
      .ok ({ critOutW.1 with
              final_report := some (generate_clinical_report ppW pmW raW flagW) },
           [Effect.auditReport (SafetyLevel.upperStr flagW.level)]) :=
  (report_render_spec svcW critOutW.1 ppW pmW raW flagW rfl rfl rfl rfl).1

/-- Claim C6: retrieval query construction is deterministic — for any
two states with identical `patient_profile` and `proposed_medication`
the retrieval node performs an identical effect sequence, in particular
a byte-for-byte identical similarity-search query (`build_query`, the
drug name plus joined conditions plus the fixed domain terms). -/
theorem retrieval_query_deterministic :
    ∀ (svc : Services) (s₁ s₂ : RxGuardState) (pp : PatientProfile)
      (pm : ProposedMedication),
      s₁.patient_profile = some pp → s₁.proposed_medication = some pm →
      s₂.patient_profile = some pp → s₂.proposed_medication = some pm →
      (guideline_retrieval_node svc s₁).map Prod.snd =
        (guideline_retrieval_node svc s₂).map Prod.snd ∧
      (guideline_retrieval_node svc s₁).map Prod.snd =
        .ok [get_vectorstore_effect svc,
             Effect.search (build_query pp pm) svc.top_k] := by
  intro svc s₁ s₂ pp pm h₁ h₂ h₃ h₄
  unfold guideline_retrieval_node
  simp only [h₁, h₂, h₃, h₄]
  exact ⟨rfl, rfl⟩

/-- Witness for C6: two (identical) post-extraction states yield the one
concrete query effect list. -/
theorem retrieval_query_deterministic_witness :
    (guideline_retrieval_node svcW exOutW.1).map Prod.snd =
      .ok [get_vectorstore_effect svcW,
           Effect.search (build_query ppW pmW) svcW.top_k] :=
  (retrieval_query_deterministic svcW exOutW.1 exOutW.1 ppW pmW
    rfl rfl rfl rfl).2

/-- Claim C2 counterexample: with a concrete extraction confidence of
0.40 the pipeline does not end as a completed run at all — it
propagates the "Extraction confidence too low" error raised inside
`run_extraction`, so the claimed normal (non-crash) outcome with
`final_report` unset is false at this input. -/
theorem low_confidence_completes_ce :
    (runPipeline svcLow (initState noteW)).isOk = false ∧
    runPipeline svcLow (initState noteW) =
      .error (ErrKind.extractionError "Extraction confidence too low",
              initState noteW, [Effect.llmExtract noteW]) := by
  exact ⟨rfl, rfl⟩

/-- Claim C2 (amended): for any input whose extraction returns a
confidence below the threshold, the run aborts with the ExtractionError
raised by `run_extraction` (it does not return a completed state); the
error carries the untouched pre-extraction state, so `final_report` and
every later field are unset, and the effect trace holds only the
extraction LLM call — the retrieval index is never touched and no
RetrievalStage or RiskReasoningStage side effect occurs. -/
theorem low_confidence_aborts :
    ∀ (svc : Services) (note : String) (r : ExtractionResult),
      blank note = false →
      svc.extractor note = .ok r →
      r.extraction_confidence < CONFIDENCE_THRESHOLD →
      runPipeline svc (initState note) =
        .error (ErrKind.extractionError "Extraction confidence too low",
                initState note, [Effect.llmExtract note]) ∧
      (initState note).final_report = none ∧
      (initState note).retrieved_guidelines = none ∧
      (initState note).risk_analysis = none ∧
      Effect.indexLoad ∉ [Effect.llmExtract note] ∧
      Effect.indexBuild ∉ [Effect.llmExtract note] ∧
      (∀ q k, Effect.search q k ∉ [Effect.llmExtract note]) ∧
      Effect.llmRisk ∉ [Effect.llmExtract note] := by
  intro svc note r hb hx hc
  refine ⟨?_, rfl, rfl, rfl, by simp, by simp, by simp, by simp⟩
  unfold runPipeline extract_patient_profile run_extraction
  simp [initState, hb, hx, hc]

/-- Witness for C2 (amended): the concrete 0.40-confidence services. -/
theorem low_confidence_aborts_witness :
    runPipeline svcLow (initState noteW) =
      .error (ErrKind.extractionError "Extraction confidence too low",
              initState noteW, [Effect.llmExtract noteW]) :=
  (low_confidence_aborts svcLow noteW ⟨ppW, pmW, mkRat 2 5⟩
    (by decide) rfl (by decide)).1

/-- Claim C7 (code bug evaluation): when the safety-critic LLM returns
an empty JSON object — the very output its own prompt requests when no
escalation is warranted — the pydantic parse of the `SafetyFlag` schema
fails ("field required"), the safety-critic node raises instead of
normalizing to `level=info, reason=""`, and the whole case aborts
instead of continuing to the report node. -/
theorem safety_empty_output_fails :
    parseSafetyFlag ⟨none, none⟩ =
      .error (ErrKind.schemaError "validation error: field required") ∧
    safety_critic_node svcEmptyFlag st3W =
      .error (ErrKind.schemaError "validation error: field required",
              st3W, [Effect.llmSafety]) ∧
    (runPipeline svcEmptyFlag (initState noteW)).isOk = false := by
  exact ⟨rfl, rfl, rfl⟩

/-- Claim C9: the extraction node's own confidence check uses the same
literal 0.75 the gate compares against, and raises below it; hence a
successful extraction always carries confidence ≥ 0.75, the gate's
"stop" branch is unreachable after a successful extraction, and every
completed (non-error) run of the composed graph has executed all five
stages and set `final_report`. -/
theorem gate_stop_unreachable :
    CONFIDENCE_THRESHOLD = (0.75 : ℚ) ∧
    (∀ (extractor : String → Except ErrKind ExtractionResult) (note : String)
        (r : ExtractionResult),
        run_extraction extractor note = .ok r →
        CONFIDENCE_THRESHOLD ≤ r.extraction_confidence) ∧
    (∀ (svc : Services) (s : RxGuardState) (out : RxGuardState × List Effect),
        extract_patient_profile svc s = .ok out →
        confidence_gate out.1 = "retrieve") ∧
    (∀ (svc : Services) (note : String) (out : RxGuardState × List Effect),
        runPipeline svc (initState note) = .ok out →
        out.1.patient_profile.isSome ∧ out.1.proposed_medication.isSome ∧
        out.1.confidence.isSome ∧ out.1.retrieved_guidelines.isSome ∧
        out.1.risk_analysis.isSome ∧ out.1.safety_flag.isSome ∧
        out.1.final_report.isSome) := by
  refine ⟨CONFIDENCE_THRESHOLD_eq, ?_, ?_, ?_⟩
  · intro extractor note r h
    exact run_extraction_ok_conf h
  · intro svc s out h
    exact gate_after_extract h
  · intro svc note out h
    obtain ⟨s1, ef1, s2, ef2, s3, ef3, s4, ef4, s5, ef5,
      hx, hg, h2, h3, h4, h5, hout⟩ := runPipeline_ok_inv h
    obtain ⟨hb, r, hr, hs1⟩ := extract_ok_shape hx
    obtain ⟨pp2, pm2, hpp2, hpm2, hs2⟩ := retrieval_ok_shape h2
    obtain ⟨pp3, pm3, gs3, ra3, hpp3, hpm3, hgs3, hro3, hs3⟩ := risk_ok_shape h3
    obtain ⟨pp4, pm4, ra4, raw4, fl4, hpp4, hpm4, hra4, ho4, hpf4, hs4⟩ :=
      safety_ok_shape h4
    obtain ⟨pp5, pm5, ra5, sf5, hpp5, hpm5, hra5, hsf5, hs5⟩ := report_ok_shape h5
    injection hs1 with hs1a hs1b
    subst hs1a; subst hs1b
    injection hs2 with hs2a hs2b
    subst hs2a; subst hs2b
    injection hs3 with hs3a hs3b
    subst hs3a; subst hs3b
    injection hs4 with hs4a hs4b
    subst hs4a; subst hs4b
    injection hs5 with hs5a hs5b
    subst hs5a; subst hs5b
    subst hout
    simp

/-- Witness for C9: the concrete completed run has `final_report` set. -/
theorem gate_stop_unreachable_witness :
    pipeOutW.1.final_report.isSome = true :=
  (gate_stop_unreachable.2.2.2 svcW noteW pipeOutW rfl).2.2.2.2.2.2

/-- Claim C10: each node writes only its designated output fields, set
to `some` values, and leaves every other state field unchanged — the
extraction node writes only `patient_profile`, `proposed_medication` and
`confidence` (`raw_note` preserved); the retrieval node writes only
`retrieved_guidelines`; the risk-reasoning node only `risk_analysis`;
the safety-critic node only `safety_flag`; the report node only
`final_report`. -/
theorem node_frame_property :
    (∀ (svc : Services) (s : RxGuardState) (out : RxGuardState × List Effect),
        extract_patient_profile svc s = .ok out →
        out.1.raw_note = s.raw_note ∧
        out.1.retrieved_guidelines = s.retrieved_guidelines ∧
        out.1.risk_analysis = s.risk_analysis ∧
        out.1.safety_flag = s.safety_flag ∧
        out.1.final_report = s.final_report ∧
        out.1.patient_profile.isSome ∧ out.1.proposed_medication.isSome ∧
        out.1.confidence.isSome) ∧
    (∀ (svc : Services) (s : RxGuardState) (out : RxGuardState × List Effect),
        guideline_retrieval_node svc s = .ok out →
        out.1.raw_note = s.raw_note ∧
        out.1.patient_profile = s.patient_profile ∧
        out.1.proposed_medication = s.proposed_medication ∧
        out.1.confidence = s.confidence ∧
        out.1.risk_analysis = s.risk_analysis ∧
        out.1.safety_flag = s.safety_flag ∧
        out.1.final_report = s.final_report ∧
        out.1.retrieved_guidelines.isSome) ∧
    (∀ (svc : Services) (s : RxGuardState) (out : RxGuardState × List Effect),
        risk_reasoning_node svc s = .ok out →
        out.1.raw_note = s.raw_note ∧
        out.1.patient_profile = s.patient_profile ∧
        out.1.proposed_medication = s.proposed_medication ∧
        out.1.confidence = s.confidence ∧
        out.1.retrieved_guidelines = s.retrieved_guidelines ∧
        out.1.safety_flag = s.safety_flag ∧
        out.1.final_report = s.final_report ∧
        out.1.risk_analysis.isSome) ∧
    (∀ (svc : Services) (s : RxGuardState) (out : RxGuardState × List Effect),
        safety_critic_node svc s = .ok out →
        out.1.raw_note = s.raw_note ∧
        out.1.patient_profile = s.patient_profile ∧
        out.1.proposed_medication = s.proposed_medication ∧
        out.1.confidence = s.confidence ∧
        out.1.retrieved_guidelines = s.retrieved_guidelines ∧
        out.1.risk_analysis = s.risk_analysis ∧
        out.1.final_report = s.final_report ∧
        out.1.safety_flag.isSome) ∧
    (∀ (svc : Services) (s : RxGuardState) (out : RxGuardState × List Effect),
        final_report_node svc s = .ok out →
        out.1.raw_note = s.raw_note ∧
        out.1.patient_profile = s.patient_profile ∧
        out.1.proposed_medication = s.proposed_medication ∧
        out.1.confidence = s.confidence ∧
        out.1.retrieved_guidelines = s.retrieved_guidelines ∧
        out.1.risk_analysis = s.risk_analysis ∧
        out.1.safety_flag = s.safety_flag ∧
        out.1.final_report.isSome) := by
  refine ⟨?_, ?_, ?_, ?_, ?_⟩
  · intro svc s out h
    obtain ⟨hb, r, hr, hout⟩ := extract_ok_shape h
    subst hout
    simp
  · intro svc s out h
    obtain ⟨pp, pm, hpp, hpm, hout⟩ := retrieval_ok_shape h
    subst hout
    simp
  · intro svc s out h
    obtain ⟨pp, pm, gs, risk, hpp, hpm, hgs, hro, hout⟩ := risk_ok_shape h
    subst hout
    simp
  · intro svc s out h
    obtain ⟨pp, pm, ra, raw, flag, hpp, hpm, hra, ho, hpf, hout⟩ :=
      safety_ok_shape h
    subst hout
    simp
  · intro svc s out h
    obtain ⟨pp, pm, ra, sf, hpp, hpm, hra, hsf, hout⟩ := report_ok_shape h
    subst hout
    simp

/-- Witness for C10: the five concrete node runs preserve `raw_note`. -/
theorem node_frame_property_witness :
    exOutW.1.raw_note = (initState noteW).raw_note ∧
    retOutW.1.raw_note = exOutW.1.raw_note ∧
    riskOutW.1.raw_note = retOutW.1.raw_note ∧
    critOutW.1.raw_note = riskOutW.1.raw_note ∧
    repOutW.1.raw_note = critOutW.1.raw_note :=
  ⟨(node_frame_property.1 svcW (initState noteW) exOutW rfl).1,
   (node_frame_property.2.1 svcW exOutW.1 retOutW rfl).1,
   (node_frame_property.2.2.1 svcW retOutW.1 riskOutW rfl).1,
   (node_frame_property.2.2.2.1 svcW riskOutW.1 critOutW rfl).1,
   (node_frame_property.2.2.2.2 svcW critOutW.1 repOutW rfl).1⟩

/-- Claim C8: the safety-critic node emits its audit event (the
prominent safety-flag log) iff the resulting `safety_flag.level` is not
"info", alongside its state write; the report node emits exactly one
terminal audit event per completed (non-halted) run, unconditionally. -/
theorem audit_events_spec :
    (∀ (svc : Services) (s : RxGuardState) (out : RxGuardState × List Effect),
        safety_critic_node svc s = .ok out →
        ∃ flag, out.1.safety_flag = some flag ∧
          (out.2.countP isAuditSafety =
            if flag.level = SafetyLevel.info then 0 else 1) ∧
          (Effect.auditSafety flag.level flag.reason ∈ out.2 ↔
            flag.level ≠ SafetyLevel.info)) ∧
    (∀ (svc : Services) (note : String) (out : RxGuardState × List Effect),
        runPipeline svc (initState note) = .ok out →
        out.1.final_report.isSome ∧ out.2.countP isAuditReport = 1) := by
  constructor
  · intro svc s out h
    obtain ⟨pp, pm, ra, raw, flag, hpp, hpm, hra, ho, hpf, hout⟩ :=
      safety_ok_shape h
    subst hout
    refine ⟨flag, by simp, ?_, ?_⟩
    · cases hfl : flag.level <;> simp [isAuditSafety, hfl]
    · cases hfl : flag.level <;> simp [hfl]
  · intro svc note out h
    obtain ⟨s1, ef1, s2, ef2, s3, ef3, s4, ef4, s5, ef5,
      hx, hg, h2, h3, h4, h5, hout⟩ := runPipeline_ok_inv h
    obtain ⟨hb, r, hr, hs1⟩ := extract_ok_shape hx
    obtain ⟨pp2, pm2, hpp2, hpm2, hs2⟩ := retrieval_ok_shape h2
    obtain ⟨pp3, pm3, gs3, ra3, hpp3, hpm3, hgs3, hro3, hs3⟩ := risk_ok_shape h3
    obtain ⟨pp4, pm4, ra4, raw4, fl4, hpp4, hpm4, hra4, ho4, hpf4, hs4⟩ :=
      safety_ok_shape h4
    obtain ⟨pp5, pm5, ra5, sf5, hpp5, hpm5, hra5, hsf5, hs5⟩ := report_ok_shape h5
    injection hs1 with hs1a hs1b
    subst hs1a; subst hs1b
    injection hs2 with hs2a hs2b
    subst hs2a; subst hs2b
    injection hs3 with hs3a hs3b
    subst hs3a; subst hs3b
    injection hs4 with hs4a hs4b
    subst hs4a; subst hs4b
    injection hs5 with hs5a hs5b
    subst hs5a; subst hs5b
    subst hout
    refine ⟨by simp, ?_⟩
    cases hv : svc.vectorstoreExists <;> cases hfl : fl4.level <;>
      simp [List.countP_append, List.countP_cons, isAuditReport,
        get_vectorstore_effect, hv, hfl]

/-- Witness for C8: the concrete completed run emits exactly one
terminal audit event. -/
theorem audit_events_spec_witness :
    pipeOutW.1.final_report.isSome = true ∧
    pipeOutW.2.countP isAuditReport = 1 :=
  audit_events_spec.2 svcW noteW pipeOutW rfl

/-- Claim C1: at completion of any run that returns a final state (no
error propagated) from the fresh initial state, exactly one of the two
shapes holds — here always the first: `final_report` is set, and the
low-confidence shape (confidence below threshold with all fields after
confidence unset) does not hold; equivalently `final_report` is set iff
`confidence ≥ threshold`; and population is forward-only — no visited
state has a later field set while an earlier required field is unset. -/
theorem completion_invariant :
    ∀ (svc : Services) (note : String) (out : RxGuardState × List Effect),
      runPipeline svc (initState note) = .ok out →
      (out.1.final_report.isSome ↔
        ∃ c, out.1.confidence = some c ∧ CONFIDENCE_THRESHOLD ≤ c) ∧
      ((out.1.final_report.isSome ∧
          ¬((∃ c, out.1.confidence = some c ∧ c < CONFIDENCE_THRESHOLD) ∧
            out.1.retrieved_guidelines = none ∧ out.1.risk_analysis = none ∧
            out.1.safety_flag = none ∧ out.1.final_report = none)) ∨
       ((¬out.1.final_report.isSome) ∧
          ((∃ c, out.1.confidence = some c ∧ c < CONFIDENCE_THRESHOLD) ∧
            out.1.retrieved_guidelines = none ∧ out.1.risk_analysis = none ∧
            out.1.safety_flag = none ∧ out.1.final_report = none))) ∧
      (∀ s ∈ pipelineVisited svc (initState note), forwardOnly s = true) := by
  intro svc note out h
  obtain ⟨s1, ef1, s2, ef2, s3, ef3, s4, ef4, s5, ef5,
    hx, hg, h2, h3, h4, h5, hout⟩ := runPipeline_ok_inv h
  obtain ⟨hb, r, hr, hs1⟩ := extract_ok_shape hx
  obtain ⟨pp2, pm2, hpp2, hpm2, hs2⟩ := retrieval_ok_shape h2
  obtain ⟨pp3, pm3, gs3, ra3, hpp3, hpm3, hgs3, hro3, hs3⟩ := risk_ok_shape h3
  obtain ⟨pp4, pm4, ra4, raw4, fl4, hpp4, hpm4, hra4, ho4, hpf4, hs4⟩ :=
    safety_ok_shape h4
  obtain ⟨pp5, pm5, ra5, sf5, hpp5, hpm5, hra5, hsf5, hs5⟩ := report_ok_shape h5
  injection hs1 with hs1a hs1b
  subst hs1a; subst hs1b
  injection hs2 with hs2a hs2b
  subst hs2a; subst hs2b
  injection hs3 with hs3a hs3b
  subst hs3a; subst hs3b
  injection hs4 with hs4a hs4b
  subst hs4a; subst hs4b
  injection hs5 with hs5a hs5b
  subst hs5a; subst hs5b
  subst hout
  have hconf : CONFIDENCE_THRESHOLD ≤ r.extraction_confidence :=
    run_extraction_ok_conf hr
  refine ⟨⟨fun _ => ⟨r.extraction_confidence, rfl, hconf⟩, fun _ => by simp⟩,
    Or.inl ⟨by simp, ?_⟩, ?_⟩
  · rintro ⟨⟨c, hc, hlt⟩, hrest⟩
    have hc' : some r.extraction_confidence = some c := hc
    injection hc' with hcc
    subst hcc
    exact absurd hlt (not_lt.mpr hconf)
  · intro s hs
    simp only [pipelineVisited, hx, hg, h2, h3, h4, h5] at hs
    rw [if_neg (by decide : ¬("retrieve" : String) = "stop")] at hs
    simp only [List.mem_cons, List.not_mem_nil, or_false] at hs
    rcases hs with rfl | rfl | rfl | rfl | rfl | rfl <;>
      simp [forwardOnly, initState]

/-- Witness for C1: the concrete completed run satisfies the
report-iff-confidence equivalence (projected at its concrete
confidence). -/
theorem completion_invariant_witness :
    pipeOutW.1.final_report.isSome :=
  (completion_invariant svcW noteW pipeOutW rfl).1.mpr
    ⟨mkRat 9 10, rfl, by decide⟩


end RxGuard
